import Mathlib

/-!
Verification of the adaptive layered-compositing renderer of this repository.

The TypeScript sources are embedded shallowly:
JS numbers are modelled as rationals, JS arrays as lists, JS objects and
Maps as association lists, class instance state as explicit state records
threaded through the methods, and asynchronous results (promise resolution,
callbacks) as explicit components of the returned values.
-/

/-! ## Data model (LayerTypes) -/

/-- Viewport information derived from a container size (LayerTypes.ViewportInfo). -/
structure ViewportInfo where
  width : ℚ
  height : ℚ
  scale : ℚ
deriving Repr, DecidableEq

/-- Reference from a layer to an image registry entry. -/
structure ImageRef where
  kind : String
  id : String
deriving Repr, DecidableEq

/-- Percentage position of a layer. -/
structure LayerPosition where
  xPct : ℚ
  yPct : ℚ
deriving Repr, DecidableEq

/-- Percentage scale of a layer. -/
structure LayerScale where
  pct : ℚ
deriving Repr, DecidableEq

/-- One declarative scene layer. -/
structure Layer where
  id : String
  imageRef : ImageRef
  position : LayerPosition
  scale : LayerScale
  angleDeg : ℚ
  z : ℚ
deriving Repr, DecidableEq

/-- The scene document (LayerTypes.LayerConfig): an image registry maps
image ids to source URLs; a JS object cannot hold a duplicate key, which
the association-list model states as a side condition where it matters. -/
structure LayerConfig where
  layersID : List String
  imageRegistry : List (String × String)
  layers : List Layer
deriving Repr, DecidableEq

/-- Absolute pixel position computed for a processed layer. -/
structure AbsolutePosition where
  x : ℚ
  y : ℚ
deriving Repr, DecidableEq

/-- A layer after processing against the current viewport. The texture and
sprite handle fields of the source (initialised to null and owned by the
renderer) carry no data relevant to the verified properties and are omitted. -/
structure ProcessedLayer extends Layer where
  absolutePosition : AbsolutePosition
  absoluteScale : ℚ
  isVisible : Bool
deriving Repr, DecidableEq

/-- Result of validating a raw scene document. -/
structure ValidationResult where
  isValid : Bool
  errors : List String
  warnings : List String
deriving Repr, DecidableEq

/-! ## PositionCalculator -/

namespace PositionCalculator

def BASE_WIDTH : ℚ := 1920

def BASE_HEIGHT : ℚ := 1080

/-- PositionCalculator.getViewportInfo: fit the 1920 by 1080 base resolution
into the container, preserving aspect ratio. -/
def getViewportInfo (containerWidth containerHeight : ℚ) : ViewportInfo :=
  let baseAspect := BASE_WIDTH / BASE_HEIGHT
  let containerAspect := containerWidth / containerHeight
  if containerAspect > baseAspect then
    -- container is wider than base aspect: fit to height
    let scale := containerHeight / BASE_HEIGHT
    { width := BASE_WIDTH * scale, height := containerHeight, scale := scale }
  else
    -- container is taller than base aspect: fit to width
    let scale := containerWidth / BASE_WIDTH
    { width := containerWidth, height := BASE_HEIGHT * scale, scale := scale }

/-- PositionCalculator.percentageToPixels. -/
def percentageToPixels (xPct yPct : ℚ) (viewportInfo : ViewportInfo) : AbsolutePosition :=
  { x := xPct / 100 * viewportInfo.width, y := yPct / 100 * viewportInfo.height }

/-- PositionCalculator.percentageToScale. -/
def percentageToScale (scalePct : ℚ) (viewportInfo : ViewportInfo) : ℚ :=
  scalePct / 100 * viewportInfo.scale

/-- PositionCalculator.isLayerVisible: bounding-box intersection test with
culling padding. -/
def isLayerVisible (x y scale textureWidth textureHeight : ℚ)
    (viewportInfo : ViewportInfo) (padding : ℚ) : Bool :=
  let spriteWidth := textureWidth * scale
  let spriteHeight := textureHeight * scale
  let left := x - spriteWidth / 2 - padding
  let right := x + spriteWidth / 2 + padding
  let top := y - spriteHeight / 2 - padding
  let bottom := y + spriteHeight / 2 + padding
  if right < 0 ∨ left > viewportInfo.width ∨ bottom < 0 ∨ top > viewportInfo.height
  then false else true

/-- Settings returned by PositionCalculator.getMobileSettings. -/
structure CullSettings where
  cullPadding : ℚ
  maxLayers : ℚ
  minScale : ℚ
deriving Repr, DecidableEq

/-- PositionCalculator.getMobileSettings: breakpoints at widths 768 and 1024. -/
def getMobileSettings (viewportInfo : ViewportInfo) : CullSettings :=
  let isMobile : Bool := decide (viewportInfo.width < 768)
  let isTablet : Bool := decide (768 ≤ viewportInfo.width ∧ viewportInfo.width < 1024)
  { cullPadding := if isMobile then 50 else if isTablet then 75 else 100,
    maxLayers := if isMobile then 50 else if isTablet then 75 else 100,
    minScale := if isMobile then 1/10 else 1/20 }

end PositionCalculator

/-! ## LayerValidator

The source validates an untyped JSON value. The typed embedding keeps the
semantic checks that can fail on a well-typed document: JS dynamic type
errors (non-array layersID, non-object registry, non-numeric fields) are
unrepresentable here. JS truthiness is kept: a missing registry entry and
an empty-string registry URL are both falsy, and an empty-string id fails
the non-empty check. The URL-syntax warning of the source (delegated to
the host URL constructor) is omitted; warnings never affect isValid. -/

namespace LayerValidator

/-- Truthiness of imageRegistry[id] in JS: absent and empty string are falsy. -/
def registryHas (registry : List (String × String)) (id : String) : Bool :=
  match registry.lookup id with
  | none => false
  | some url => url != ""

/-- LayerValidator.validateLayer: errors contributed by one layer, in the
order the source pushes them. -/
def validateLayer (layer : Layer) (index : Nat) (registry : List (String × String)) :
    List String :=
  let pfx := "layers[" ++ toString index ++ "]"
  (if layer.id = "" then [pfx ++ ".id must be a non-empty string"] else []) ++
  (if layer.imageRef.kind ≠ "urlId" then
    [pfx ++ ".imageRef.kind must be \x27urlId\x27"] else []) ++
  (if layer.imageRef.id = "" then [pfx ++ ".imageRef.id must be a non-empty string"]
   else if registryHas registry layer.imageRef.id = false then
    [pfx ++ ".imageRef.id \x27" ++ layer.imageRef.id ++ "\x27 not found in imageRegistry"]
   else []) ++
  (if layer.position.xPct < 0 ∨ layer.position.xPct > 100 then
    [pfx ++ ".position.xPct must be a number between 0 and 100"] else []) ++
  (if layer.position.yPct < 0 ∨ layer.position.yPct > 100 then
    [pfx ++ ".position.yPct must be a number between 0 and 100"] else []) ++
  (if layer.scale.pct ≤ 0 then [pfx ++ ".scale.pct must be a positive number"] else [])

/-- LayerValidator.validate on a well-typed document. -/
def validate (config : LayerConfig) : ValidationResult :=
  let errors :=
    (config.layers.enum.map
      (fun p => validateLayer p.2 p.1 config.imageRegistry)).flatten
  let isValid := errors.isEmpty
  let baseWarnings :=
    (if config.layersID.isEmpty then ["layersID array is empty"] else []) ++
    (if config.layers.isEmpty then ["layers array is empty"] else [])
  -- cross-validation between layersID and layers runs only when no errors exist
  let crossWarnings :=
    if isValid then
      (config.layersID.filter
          (fun id => !(config.layers.any (fun l => l.id == id)))).map
        (fun id => "Layer " ++ id ++ " declared in layersID but not found in layers array") ++
      (config.layers.filter (fun l => !(config.layersID.contains l.id))).map
        (fun l => "Layer " ++ l.id ++ " found in layers but not declared in layersID")
    else []
  { isValid := isValid, errors := errors, warnings := baseWarnings ++ crossWarnings }

end LayerValidator

/-! ## LayerLoader -/

/-- Mutable state of a LayerLoader instance. -/
structure LoaderState where
  config : Option LayerConfig
  processedLayers : List ProcessedLayer
  viewportInfo : ViewportInfo
deriving Repr, DecidableEq

/-- Initial LayerLoader state: no config, no processed layers, the default
1920 by 1080 viewport. -/
def initialLoaderState : LoaderState :=
  { config := none, processedLayers := [], viewportInfo := ⟨1920, 1080, 1⟩ }

namespace LayerLoader

/-- LayerLoader.processLayer: compute absolute position and scale against the
current viewport; visibility defaults to true pending culling. -/
def processLayer (viewportInfo : ViewportInfo) (layer : Layer) : ProcessedLayer :=
  { toLayer := layer,
    absolutePosition :=
      PositionCalculator.percentageToPixels layer.position.xPct layer.position.yPct viewportInfo,
    absoluteScale := PositionCalculator.percentageToScale layer.scale.pct viewportInfo,
    isVisible := true }

/-- LayerLoader.updateLayerVisibility: culling with a default 100 by 100
texture size, pending real texture dimensions. -/
def updateLayerVisibility (viewportInfo : ViewportInfo) (layers : List ProcessedLayer) :
    List ProcessedLayer :=
  let mobileSettings := PositionCalculator.getMobileSettings viewportInfo
  layers.map (fun layer =>
    { layer with isVisible :=
        (PositionCalculator.isLayerVisible layer.absolutePosition.x layer.absolutePosition.y
          layer.absoluteScale 100 100 viewportInfo mobileSettings.cullPadding) })

/-- LayerLoader.processLayers, as a function of the document and viewport:
sort layers by ascending z (JS Array.sort is stable; mergeSort matches),
process each layer, then apply default-size culling. -/
def processLayersList (config : LayerConfig) (viewportInfo : ViewportInfo) :
    List ProcessedLayer :=
  let sortedLayers := config.layers.mergeSort (fun a b => decide (a.z ≤ b.z))
  updateLayerVisibility viewportInfo (sortedLayers.map (processLayer viewportInfo))

/-- LayerLoader.setConfig: validate; on failure report and throw before any
state mutation (the returned state is the input state, the middle component
is the reported and thrown error, the last component is the subscriber
notification, none when no notification happens). On success store the
document, process it and notify with the full ordered list. -/
def setConfig (st : LoaderState) (configData : LayerConfig) :
    LoaderState × Option String × Option (List ProcessedLayer) :=
  let validation := LayerValidator.validate configData
  if validation.isValid = false then
    (st, some ("Invalid configuration: " ++ String.intercalate ", " validation.errors), none)
  else
    let st1 := { st with config := some configData }
    let processed := processLayersList configData st1.viewportInfo
    let st2 := { st1 with processedLayers := processed }
    (st2, none, some processed)

/-- LayerLoader.getProcessedLayers returns a copy of the stored list. -/
def getProcessedLayers (st : LoaderState) : List ProcessedLayer :=
  st.processedLayers

end LayerLoader

/-! ## SpritePool -/

/-- Mutable state of a SpritePool instance. Sprite handles are opaque and
numbered by a freshness counter; availableSprites mirrors the JS array
(push appends at the end, pop removes from the end); activeSprites is the
Map from layer id to handle; destroyed logs handles passed to destroy(). -/
structure SpritePoolState where
  availableSprites : List Nat
  activeSprites : List (String × Nat)
  maxPoolSize : Nat
  nextSprite : Nat
  destroyed : List Nat
deriving Repr, DecidableEq

/-- A freshly constructed SpritePool (the source defaults maxPoolSize to 150). -/
def initialSpritePool (maxPoolSize : Nat) : SpritePoolState :=
  { availableSprites := [], activeSprites := [], maxPoolSize := maxPoolSize,
    nextSprite := 0, destroyed := [] }

namespace SpritePool

/-- SpritePool.getSprite: reuse the active handle for the layer when present
(updating its texture mutates only the handle); otherwise pop a pooled handle
from the end of the array or allocate a fresh one, and mark it active. -/
def getSprite (st : SpritePoolState) (layerId : String) : SpritePoolState × Nat :=
  match st.activeSprites.lookup layerId with
  | some sprite => (st, sprite)
  | none =>
    match st.availableSprites.getLast? with
    | some sprite =>
      ({ st with
          availableSprites := st.availableSprites.dropLast,
          activeSprites := (layerId, sprite) :: st.activeSprites }, sprite)
    | none =>
      ({ st with
          nextSprite := st.nextSprite + 1,
          activeSprites := (layerId, st.nextSprite) :: st.activeSprites }, st.nextSprite)

/-- SpritePool.returnSprite: move the handle out of the active map, reset its
visual state (a handle-only mutation), then pool it if the pool is below
capacity, else destroy it. -/
def returnSprite (st : SpritePoolState) (layerId : String) : SpritePoolState :=
  match st.activeSprites.lookup layerId with
  | none => st
  | some sprite =>
    let st1 := { st with activeSprites := st.activeSprites.filter (fun p => p.1 != layerId) }
    if st1.availableSprites.length < st1.maxPoolSize then
      { st1 with availableSprites := st1.availableSprites ++ [sprite] }
    else
      { st1 with destroyed := st1.destroyed ++ [sprite] }

/-- SpritePool.updateSprite writes position, scale, rotation, visibility and
userData onto the handle itself; the pool bookkeeping is untouched. -/
def updateSprite (st : SpritePoolState) (_layerId : String) (_layer : ProcessedLayer) :
    SpritePoolState :=
  st

/-- SpritePool.cleanupUnusedSprites: return every active handle whose layer id
is not in the current set. -/
def cleanupUnusedSprites (st : SpritePoolState) (currentLayerIds : List String) :
    SpritePoolState :=
  let activeIds := st.activeSprites.map (fun p => p.1)
  activeIds.foldl
    (fun s layerId => if currentLayerIds.contains layerId then s else returnSprite s layerId) st

/-- SpritePool.optimizePoolSize: utilization above 80 percent grows the cap by
25 (ceiling 200 before growth); utilization below 40 percent with a cap above
50 destroys pooled handles beyond the first 25 and shrinks the cap by 25.
Utilization is computed once, against the cap before any growth. JS division
by zero yields Infinity or NaN where rational division yields 0; the
divergence is confined to maxPoolSize = 0. -/
def optimizePoolSize (st : SpritePoolState) : SpritePoolState :=
  let usage : ℚ := (st.activeSprites.length : ℚ) / (st.maxPoolSize : ℚ)
  let st1 :=
    if usage > 8/10 ∧ st.maxPoolSize < 200 then
      { st with maxPoolSize := st.maxPoolSize + 25 }
    else st
  if usage < 4/10 ∧ st1.maxPoolSize > 50 then
    { st1 with
        availableSprites := st1.availableSprites.take 25,
        destroyed := st1.destroyed ++ st1.availableSprites.drop 25,
        maxPoolSize := st1.maxPoolSize - 25 }
  else st1

end SpritePool

/-- One public SpritePool operation. -/
inductive PoolOp where
  | get (layerId : String)
  | ret (layerId : String)
  | cleanup (currentLayerIds : List String)
  | update (layerId : String) (layer : ProcessedLayer)
  | optimize
deriving Repr

/-- Apply one SpritePool operation to the pool state. -/
def poolStep (st : SpritePoolState) (op : PoolOp) : SpritePoolState :=
  match op with
  | .get layerId => (SpritePool.getSprite st layerId).1
  | .ret layerId => SpritePool.returnSprite st layerId
  | .cleanup ids => SpritePool.cleanupUnusedSprites st ids
  | .update layerId layer => SpritePool.updateSprite st layerId layer
  | .optimize => SpritePool.optimizePoolSize st

/-- Apply a sequence of SpritePool operations. -/
def runPool (st : SpritePoolState) (ops : List PoolOp) : SpritePoolState :=
  ops.foldl poolStep st

/-! ## MobileOptimizations -/

/-- Quality settings table (MobileOptimizations.MobileSettings). -/
structure MobileSettings where
  maxLayers : ℚ
  targetFPS : ℚ
  cullPadding : ℚ
  textureScale : ℚ
  enableLowPowerMode : Bool
  batchSize : ℚ
  memoryLimit : ℚ
deriving Repr, DecidableEq

/-- Host capability classification (MobileOptimizations.deviceInfo). -/
structure DeviceInfo where
  isMobile : Bool
  isTablet : Bool
  isLowEnd : Bool
  pixelRatio : ℚ
  memoryGB : ℚ
deriving Repr, DecidableEq

namespace MobileOptimizations

/-- MobileOptimizations.detectDevice, with the host hints (devicePixelRatio,
hardwareConcurrency, deviceMemory) passed explicitly. -/
def detectDevice (viewportInfo : ViewportInfo)
    (pixelRatio hardwareConcurrency memory : ℚ) : DeviceInfo :=
  { isMobile := decide (viewportInfo.width < 768),
    isTablet := decide (768 ≤ viewportInfo.width ∧ viewportInfo.width < 1024),
    isLowEnd := decide (hardwareConcurrency ≤ 2 ∨ memory ≤ 2),
    pixelRatio := pixelRatio,
    memoryGB := memory }

/-- MobileOptimizations.generateSettings: the per-class quality table. -/
def generateSettings (dev : DeviceInfo) : MobileSettings :=
  if dev.isMobile then
    { maxLayers := if dev.isLowEnd then 15 else 30,
      targetFPS := if dev.isLowEnd then 24 else 30,
      cullPadding := 50,
      textureScale := if dev.isLowEnd then 1/2 else 3/4,
      enableLowPowerMode := dev.isLowEnd,
      batchSize := 5,
      memoryLimit := min (dev.memoryGB * (3/10)) 1 }
  else if dev.isTablet then
    { maxLayers := if dev.isLowEnd then 30 else 50,
      targetFPS := if dev.isLowEnd then 30 else 45,
      cullPadding := 75,
      textureScale := if dev.isLowEnd then 3/4 else 1,
      enableLowPowerMode := dev.isLowEnd,
      batchSize := 8,
      memoryLimit := min (dev.memoryGB * (4/10)) 2 }
  else
    { maxLayers := if dev.isLowEnd then 50 else 100,
      targetFPS := 60,
      cullPadding := 100,
      textureScale := 1,
      enableLowPowerMode := false,
      batchSize := 10,
      memoryLimit := min (dev.memoryGB * (1/2)) 4 }

/-- The fps-poor block of updateSettingsForPerformance: step maxLayers down by
10 toward the floor 10, textureScale down by 0.25 toward the floor 0.25, and
force low-power mode; the Bool mirrors every assignment of updated = true. -/
def adjustForLowFps (s : MobileSettings) : MobileSettings × Bool :=
  let layersStep :=
    if s.maxLayers > 10 then (max 10 (s.maxLayers - 10), true) else (s.maxLayers, false)
  let textureStep :=
    if s.textureScale > 1/4 then (max (1/4) (s.textureScale - 1/4), true)
    else (s.textureScale, false)
  let powerStep := if s.enableLowPowerMode then (true, false) else (true, true)
  ({ s with
      maxLayers := layersStep.1,
      textureScale := textureStep.1,
      enableLowPowerMode := powerStep.1 },
   layersStep.2 || textureStep.2 || powerStep.2)

/-- The class-specific maxLayers ceiling used by the fps-good block. -/
def maxPossibleLayers (dev : DeviceInfo) : ℚ :=
  if dev.isMobile then 50 else if dev.isTablet then 75 else 100

/-- The fps-good block of updateSettingsForPerformance: step maxLayers up by 5
toward the class ceiling, and on a non-low-end device step textureScale up by
0.25 toward 1. -/
def adjustForHighFps (dev : DeviceInfo) (s : MobileSettings) : MobileSettings × Bool :=
  let layersStep :=
    if s.maxLayers < maxPossibleLayers dev then (min (maxPossibleLayers dev) (s.maxLayers + 5), true)
    else (s.maxLayers, false)
  let textureStep :=
    if s.textureScale < 1 ∧ dev.isLowEnd = false then (min 1 (s.textureScale + 1/4), true)
    else (s.textureScale, false)
  ({ s with maxLayers := layersStep.1, textureScale := textureStep.1 },
   layersStep.2 || textureStep.2)

/-- The memory block of updateSettingsForPerformance: force low-power mode
unconditionally and step maxLayers down by 5 toward the floor 5; only the
maxLayers step sets updated = true in the source. -/
def adjustForMemory (s : MobileSettings) : MobileSettings × Bool :=
  let s1 := { s with enableLowPowerMode := true }
  if s1.maxLayers > 5 then ({ s1 with maxLayers := max 5 (s1.maxLayers - 5) }, true)
  else (s1, false)

/-- The fps hysteresis part of updateSettingsForPerformance: the poor branch
below 0.8 of the target, the good branch above 1.2 of it, else no change. -/
def fpsPhase (dev : DeviceInfo) (s : MobileSettings) (fps : ℚ) : MobileSettings × Bool :=
  if fps < s.targetFPS * (8/10) then adjustForLowFps s
  else if fps > s.targetFPS * (12/10) then adjustForHighFps dev s
  else (s, false)

/-- MobileOptimizations.updateSettingsForPerformance: the fps hysteresis
blocks, then the independent memory block; returns the new settings and the
updated flag of the source. -/
def updateSettingsForPerformance (dev : DeviceInfo) (s : MobileSettings)
    (fps memoryUsagePercent : ℚ) : MobileSettings × Bool :=
  let phase1 := fpsPhase dev s fps
  let memPhase :=
    if memoryUsagePercent > 80 then adjustForMemory phase1.1 else (phase1.1, false)
  (memPhase.1, phase1.2 || memPhase.2)

end MobileOptimizations

/-! ## ImagePreloader -/

/-- Texture handles: the shared fallback texture, or a texture decoded from a
source URL. -/
inductive Texture where
  | fallback
  | fromUrl (url : String)
deriving Repr, DecidableEq

/-- Result of one ImagePreloader.preloadImages batch: the cache after the
batch resolved, and the failures reported through the error callback. -/
structure PreloadOutcome where
  textureCache : List (String × Texture)
  reportedErrors : List String
deriving Repr, DecidableEq

namespace ImagePreloader

/-- JS Map.set: replace an existing key in place, else append at the end. -/
def cacheSet (cache : List (String × Texture)) (id : String) (t : Texture) :
    List (String × Texture) :=
  if cache.any (fun p => p.1 == id) then
    cache.map (fun p => if p.1 == id then (id, t) else p)
  else cache ++ [(id, t)]

/-- The per-entry resolution inside ImagePreloader.preloadImages: a cached
texture is reused; otherwise the load oracle gives the decoded texture, or
none for a load error or the 10-second timeout, in which case the entry
resolves to the shared fallback texture with success = false. -/
def loadEntry (cache0 : List (String × Texture)) (load : String → Option Texture)
    (id url : String) : String × Texture × Bool :=
  match cache0.lookup id with
  | some t => (id, t, true)
  | none =>
    match load url with
    | some t => (id, t, true)
    | none => (id, Texture.fallback, false)

/-- ImagePreloader.preloadImages: every entry resolves (per-item failures
resolve to the fallback and are reported through the error callback, never
rejecting the batch), then every result is stored in the cache keyed by
image id. -/
def preloadImages (cache0 : List (String × Texture)) (imageRegistry : List (String × String))
    (load : String → Option Texture) : PreloadOutcome :=
  let results := imageRegistry.map (fun e => loadEntry cache0 load e.1 e.2)
  { textureCache := results.foldl (fun c r => cacheSet c r.1 r.2.1) cache0,
    reportedErrors := results.filterMap
      (fun r => if r.2.2 then none else some ("Failed to load image " ++ r.1)) }

/-- ImagePreloader.getTexture: the cached texture, or the fallback when the
id is absent. -/
def getTexture (cache : List (String × Texture)) (imageId : String) : Texture :=
  (cache.lookup imageId).getD Texture.fallback

end ImagePreloader

/-! ## ErrorRecovery -/

/-- Constructor options of ErrorRecovery (fallbackConfig and the degradation
toggle do not influence the verified behaviour). -/
structure RecoveryOptions where
  maxRetries : Nat
  retryDelay : Nat
deriving Repr, DecidableEq

/-- The constructor defaults: maxRetries 3, retryDelay 1000 ms. -/
def defaultRecoveryOptions : RecoveryOptions :=
  { maxRetries := 3, retryDelay := 1000 }

/-- ErrorRecovery.RecoveryState. -/
structure RecoveryState where
  isRecovering : Bool
  lastError : Option String
  retryCount : Nat
  recoveryActions : List String
  degradationLevel : Nat
deriving Repr, DecidableEq

/-- The initial recovery state of a fresh ErrorRecovery instance. -/
def initialRecoveryState : RecoveryState :=
  { isRecovering := false, lastError := none, retryCount := 0,
    recoveryActions := [], degradationLevel := 0 }

/-- Result of one recovery attempt. -/
structure RecoveryResult where
  recovered : Bool
  action : String
deriving Repr, DecidableEq

namespace ErrorRecovery

/-- The four recovery strategies. -/
inductive StrategyType where
  | retry
  | fallback
  | degrade
  | abort
deriving Repr, DecidableEq

/-- Whether pat occurs as a contiguous run inside s (JS String.includes on
the underlying characters). -/
def charSeqContains (pat : List Char) : List Char → Bool
  | [] => pat.isEmpty
  | c :: rest => pat.isPrefixOf (c :: rest) || charSeqContains pat rest

/-- JS message.includes(pat). -/
def strIncludes (s pat : String) : Bool :=
  charSeqContains pat.data s.data

/-- JS message.toLowerCase() on the underlying characters. -/
def toLowerCase (s : String) : String :=
  String.mk (s.data.map Char.toLower)

/-- ErrorRecovery.getRecoveryStrategy: keyword families over the lowercased
error message; unmatched messages default to retry. -/
def getRecoveryStrategy (message : String) : StrategyType × Nat :=
  let errorMessage := toLowerCase message
  if strIncludes errorMessage "fetch" || strIncludes errorMessage "network" ||
      strIncludes errorMessage "load" || strIncludes errorMessage "timeout" then
    (.retry, 1)
  else if strIncludes errorMessage "config" || strIncludes errorMessage "validation" ||
      strIncludes errorMessage "json" then
    (.fallback, 2)
  else if strIncludes errorMessage "render" || strIncludes errorMessage "pixi" ||
      strIncludes errorMessage "webgl" || strIncludes errorMessage "canvas" then
    (.degrade, 3)
  else if strIncludes errorMessage "memory" || strIncludes errorMessage "heap" then
    (.degrade, 4)
  else
    (.retry, 1)

/-- ErrorRecovery.attemptRetry. The optional retry closure is modelled by its
outcome: none when no retry function was provided, some b for a closure whose
invocation succeeds iff b. The second component is the backoff sleep that was
performed, none when the method returns without waiting. -/
def attemptRetry (opts : RecoveryOptions) (st : RecoveryState) (retryOutcome : Option Bool) :
    RecoveryResult × Option Nat :=
  if st.retryCount ≥ opts.maxRetries then
    ({ recovered := false,
       action := "Max retries (" ++ toString opts.maxRetries ++ ") exceeded" }, none)
  else
    match retryOutcome with
    | none => ({ recovered := false, action := "No retry function provided" }, none)
    | some ok =>
      let delay := opts.retryDelay * 2 ^ st.retryCount
      if ok then
        ({ recovered := true,
           action := "Retry successful after " ++ toString (st.retryCount + 1) ++ " attempts" },
         some delay)
      else
        ({ recovered := false,
           action := "Retry " ++ toString (st.retryCount + 1) ++ " failed" }, some delay)

/-- The fixed five-step mitigation ladder of ErrorRecovery.degradePerformance. -/
def degradations : List String :=
  ["Reduced layer count by 50%",
   "Disabled antialiasing",
   "Reduced texture resolution",
   "Enabled low power mode",
   "Switched to minimal rendering"]

/-- ErrorRecovery.degradePerformance: increment degradationLevel, report the
ladder entry at the new level (index capped at the last ladder position)
while the ladder is not exhausted, else fail with maximum degradation
reached. -/
def degradePerformance (st : RecoveryState) : RecoveryState × RecoveryResult :=
  let st1 := { st with degradationLevel := st.degradationLevel + 1 }
  let action := degradations.getD (min (st1.degradationLevel - 1) (degradations.length - 1)) ""
  if st1.degradationLevel ≤ degradations.length then
    (st1, { recovered := true, action := action })
  else
    (st1, { recovered := false, action := "Maximum degradation reached" })

/-- ErrorRecovery.useFallbackConfig always reports success. -/
def useFallbackConfig : RecoveryResult :=
  { recovered := true, action := "Switched to fallback configuration" }

/-- ErrorRecovery.executeRecoveryStrategy. -/
def executeRecoveryStrategy (opts : RecoveryOptions) (st : RecoveryState)
    (strategy : StrategyType) (retryOutcome : Option Bool) :
    RecoveryState × RecoveryResult × Option Nat :=
  match strategy with
  | .retry =>
    let r := attemptRetry opts st retryOutcome
    (st, r.1, r.2)
  | .fallback => (st, useFallbackConfig, none)
  | .degrade =>
    let r := degradePerformance st
    (r.1, r.2, none)
  | .abort => (st, { recovered := false, action := "Recovery aborted - critical error" }, none)

/-- ErrorRecovery.handleError: record the error, classify it, execute the
chosen strategy, then reset retryCount to 0 on success (appending the action
to the log) or increment it on failure; isRecovering is cleared on exit. The
last component is the backoff wait performed, if any. -/
def handleError (opts : RecoveryOptions) (st : RecoveryState)
    (message : String) (retryOutcome : Option Bool) :
    RecoveryState × RecoveryResult × Option Nat :=
  let st1 := { st with lastError := some message, isRecovering := true }
  let strategy := (getRecoveryStrategy message).1
  let r := executeRecoveryStrategy opts st1 strategy retryOutcome
  let st2 := r.1
  let st3 :=
    if r.2.1.recovered then
      { st2 with retryCount := 0, recoveryActions := st2.recoveryActions ++ [r.2.1.action] }
    else
      { st2 with retryCount := st2.retryCount + 1 }
  ({ st3 with isRecovering := false }, r.2.1, r.2.2)

end ErrorRecovery

/-! ## ConfigWatcher -/

/-- Mutable state of a ConfigWatcher relevant to change detection. -/
structure WatcherState where
  lastModified : Nat
deriving Repr, DecidableEq

/-- A fresh watcher: no baseline observed yet. -/
def initialWatcherState : WatcherState :=
  { lastModified := 0 }

/-- One polled HEAD response: whether the request succeeded, the parsed
last-modified header when present, and whether the subsequent full fetch in
loadAndNotify would succeed. -/
structure PollResponse where
  ok : Bool
  lastModifiedHeader : Option Nat
  loadOk : Bool
deriving Repr, DecidableEq

namespace ConfigWatcher

/-- ConfigWatcher.checkForChanges at clock time now. Returns the new state,
whether the change callback was invoked, and the reported error if any. A
failed HEAD request throws before lastModified is touched; when the header is
absent the current clock time substitutes for it. loadAndNotify catches its
own errors, so lastModified is updated even when the reload fetch fails. -/
def checkForChanges (st : WatcherState) (response : PollResponse) (now : Nat) :
    WatcherState × Bool × Option String :=
  if response.ok = false then
    (st, false, some "Config watcher error: config file not found")
  else
    let currentModified :=
      match response.lastModifiedHeader with
      | some t => t
      | none => now
    if st.lastModified > 0 ∧ currentModified > st.lastModified then
      ({ lastModified := currentModified }, response.loadOk,
       if response.loadOk then none else some "Failed to reload config")
    else
      ({ lastModified := currentModified }, false, none)

/-- Iterated polls: the final state and the per-poll change-callback flags in
order. -/
def runPolls (st : WatcherState) : List (PollResponse × Nat) → WatcherState × List Bool
  | [] => (st, [])
  | (response, now) :: rest =>
    let r := checkForChanges st response now
    let rs := runPolls r.1 rest
    (rs.1, r.2.1 :: rs.2)

end ConfigWatcher

/-! ## Concrete example documents -/

/-- A three-layer document whose layers appear in input order A, B, C with z
values 3, 1, 2. -/
def exampleDoc321 : LayerConfig :=
  { layersID := ["A", "B", "C"],
    imageRegistry := [("img", "https://example.com/img.png")],
    layers :=
      [{ id := "A", imageRef := ⟨"urlId", "img"⟩, position := ⟨50, 50⟩, scale := ⟨50⟩,
         angleDeg := 0, z := 3 },
       { id := "B", imageRef := ⟨"urlId", "img"⟩, position := ⟨25, 25⟩, scale := ⟨50⟩,
         angleDeg := 0, z := 1 },
       { id := "C", imageRef := ⟨"urlId", "img"⟩, position := ⟨75, 75⟩, scale := ⟨50⟩,
         angleDeg := 0, z := 2 }] }

/-- The same three layers in a different input array order (C, A, B). -/
def exampleDocShuffled : LayerConfig :=
  { layersID := ["A", "B", "C"],
    imageRegistry := [("img", "https://example.com/img.png")],
    layers :=
      [{ id := "C", imageRef := ⟨"urlId", "img"⟩, position := ⟨75, 75⟩, scale := ⟨50⟩,
         angleDeg := 0, z := 2 },
       { id := "A", imageRef := ⟨"urlId", "img"⟩, position := ⟨50, 50⟩, scale := ⟨50⟩,
         angleDeg := 0, z := 3 },
       { id := "B", imageRef := ⟨"urlId", "img"⟩, position := ⟨25, 25⟩, scale := ⟨50⟩,
         angleDeg := 0, z := 1 }] }

/-- A document rejected by the validator: its single layer has scale.pct = 0. -/
def exampleInvalidDoc : LayerConfig :=
  { layersID := ["L1"],
    imageRegistry := [("img", "https://example.com/img.png")],
    layers :=
      [{ id := "L1", imageRef := ⟨"urlId", "img"⟩, position := ⟨50, 50⟩, scale := ⟨0⟩,
         angleDeg := 0, z := 1 }] }

/-! # Theorems -/

/-- C4 (amended): getViewportInfo(1920,1080) returns scale 1, width 1920,
height 1080; a container strictly wider than the 16 by 9 base aspect fits to
height with scale containerH/1080 and width 1920 times that scale; otherwise
it fits to width with scale containerW/1920 and height 1080 times that scale;
in particular getViewportInfo(800,600), whose aspect 4/3 is narrower than
16/9, fits to width with scale 800/1920. -/
theorem C4_getViewportInfo_fit (w h : ℚ) :
    PositionCalculator.getViewportInfo 1920 1080 = ⟨1920, 1080, 1⟩ ∧
    (w / h > 1920 / 1080 →
      PositionCalculator.getViewportInfo w h = ⟨1920 * (h / 1080), h, h / 1080⟩) ∧
    (¬(w / h > 1920 / 1080) →
      PositionCalculator.getViewportInfo w h = ⟨w, 1080 * (w / 1920), w / 1920⟩) ∧
    PositionCalculator.getViewportInfo 800 600 = ⟨800, 450, 800 / 1920⟩ := by
  refine ⟨?_, ?_, ?_, ?_⟩
  · norm_num [PositionCalculator.getViewportInfo, PositionCalculator.BASE_WIDTH,
      PositionCalculator.BASE_HEIGHT]
  · intro hw
    simp only [PositionCalculator.getViewportInfo, PositionCalculator.BASE_WIDTH,
      PositionCalculator.BASE_HEIGHT]
    rw [if_pos hw]
  · intro hw
    simp only [PositionCalculator.getViewportInfo, PositionCalculator.BASE_WIDTH,
      PositionCalculator.BASE_HEIGHT]
    rw [if_neg hw]
  · norm_num [PositionCalculator.getViewportInfo, PositionCalculator.BASE_WIDTH,
      PositionCalculator.BASE_HEIGHT]

/-- Witness for C4: a 3840 by 1080 container is wider than 16 by 9 and fits
to height with scale 1080/1080. -/
theorem C4_getViewportInfo_fit_witness :
    ((3840 : ℚ) / 1080 > 1920 / 1080) ∧
    PositionCalculator.getViewportInfo 3840 1080 = ⟨1920 * (1080 / 1080), 1080, 1080 / 1080⟩ :=
  ⟨by norm_num, (C4_getViewportInfo_fit 3840 1080).2.1 (by norm_num)⟩

/-- C4 counterexample: an 800 by 600 container has aspect 4/3, which is
narrower than 16/9, so getViewportInfo fits it to width: the returned scale
is 800/1920 = 5/12, not the fit-to-height 600/1080 = 5/9, refuting the claim
that getViewportInfo(800,600) fits to height. -/
theorem C4_800_600_not_fit_to_height :
    (PositionCalculator.getViewportInfo 800 600).scale ≠ 600 / 1080 ∧
    (PositionCalculator.getViewportInfo 800 600).width = 800 ∧
    (PositionCalculator.getViewportInfo 800 600).height = 450 := by
  norm_num [PositionCalculator.getViewportInfo, PositionCalculator.BASE_WIDTH,
    PositionCalculator.BASE_HEIGHT]

/-- C9: when validation of a new document fails, setConfig reports the error
and throws before storing anything: the loader state (stored config and
processedLayers) is exactly what it was and no subscriber notification
happens. -/
theorem C9_setConfig_atomic_on_invalid (st : LoaderState) (cfg : LayerConfig)
    (hv : (LayerValidator.validate cfg).isValid = false) :
    (LayerLoader.setConfig st cfg).1 = st ∧
    ((LayerLoader.setConfig st cfg).2.1).isSome = true ∧
    (LayerLoader.setConfig st cfg).2.2 = none ∧
    LayerLoader.getProcessedLayers (LayerLoader.setConfig st cfg).1 =
      LayerLoader.getProcessedLayers st := by
  simp [LayerLoader.setConfig, hv, LayerLoader.getProcessedLayers]

/-- Witness for C9: the concrete document with scale.pct = 0 is invalid and
leaves the fresh loader state untouched, with no notification. -/
theorem C9_setConfig_atomic_on_invalid_witness :
    (LayerValidator.validate exampleInvalidDoc).isValid = false ∧
    (LayerLoader.setConfig initialLoaderState exampleInvalidDoc).1 = initialLoaderState ∧
    (LayerLoader.setConfig initialLoaderState exampleInvalidDoc).2.2 = none := by
  have hv : (LayerValidator.validate exampleInvalidDoc).isValid = false := by decide
  have h := C9_setConfig_atomic_on_invalid initialLoaderState exampleInvalidDoc hv
  exact ⟨hv, h.1, h.2.2.1⟩

/-- C6: processing the same valid scene document a second time with an
unchanged viewport yields an identical absolutePosition and absoluteScale for
every layer: the notified layer lists of the two setConfig calls agree on
those fields layer by layer. -/
theorem C6_processing_idempotent (st : LoaderState) (cfg : LayerConfig)
    (hv : (LayerValidator.validate cfg).isValid = true) :
    ((LayerLoader.setConfig (LayerLoader.setConfig st cfg).1 cfg).1.processedLayers.map
        (fun l => (l.absolutePosition, l.absoluteScale))) =
      ((LayerLoader.setConfig st cfg).1.processedLayers.map
        (fun l => (l.absolutePosition, l.absoluteScale))) := by
  simp [LayerLoader.setConfig, hv]

/-- Witness for C6: the concrete three-layer document is valid and reprocessing
it from the fresh loader state reproduces the same positions and scales. -/
theorem C6_processing_idempotent_witness :
    (LayerValidator.validate exampleDoc321).isValid = true ∧
    ((LayerLoader.setConfig (LayerLoader.setConfig initialLoaderState exampleDoc321).1
        exampleDoc321).1.processedLayers.map
          (fun l => (l.absolutePosition, l.absoluteScale))) =
      ((LayerLoader.setConfig initialLoaderState exampleDoc321).1.processedLayers.map
        (fun l => (l.absolutePosition, l.absoluteScale))) := by
  have hv : (LayerValidator.validate exampleDoc321).isValid = true := by decide
  exact ⟨hv, C6_processing_idempotent initialLoaderState exampleDoc321 hv⟩

/-- C1: for every error classified to the retry strategy: when retryCount has
already reached maxRetries (3 under the constructor defaults), handleError
reports unrecovered with the max-retries-exceeded action (rendered as
Max retries (N) exceeded) and performs no backoff wait, and the failure
increments retryCount; below the cap with a retry function provided it waits
retryDelay * 2 ^ retryCount before invoking the function, a successful retry
resets retryCount to 0, and a failed one increments it. -/
theorem C1_handleError_retry_backoff (opts : RecoveryOptions) (st : RecoveryState)
    (message : String) (retryOutcome : Option Bool)
    (hstrat : (ErrorRecovery.getRecoveryStrategy message).1 = ErrorRecovery.StrategyType.retry) :
    defaultRecoveryOptions.maxRetries = 3 ∧
    (opts.maxRetries ≤ st.retryCount →
      (ErrorRecovery.handleError opts st message retryOutcome).2.1.recovered = false ∧
      (ErrorRecovery.handleError opts st message retryOutcome).2.1.action =
        "Max retries (" ++ toString opts.maxRetries ++ ") exceeded" ∧
      (ErrorRecovery.handleError opts st message retryOutcome).2.2 = none ∧
      (ErrorRecovery.handleError opts st message retryOutcome).1.retryCount =
        st.retryCount + 1) ∧
    (∀ ok, retryOutcome = some ok → st.retryCount < opts.maxRetries →
      (ErrorRecovery.handleError opts st message retryOutcome).2.2 =
        some (opts.retryDelay * 2 ^ st.retryCount) ∧
      (ErrorRecovery.handleError opts st message retryOutcome).2.1.recovered = ok ∧
      (ErrorRecovery.handleError opts st message retryOutcome).1.retryCount =
        (if ok then 0 else st.retryCount + 1)) := by
  refine ⟨rfl, ?_, ?_⟩
  · intro hcap
    have hge : st.retryCount ≥ opts.maxRetries := hcap
    simp [ErrorRecovery.handleError, ErrorRecovery.executeRecoveryStrategy, hstrat,
      ErrorRecovery.attemptRetry, hge]
  · intro ok hok hlt
    subst hok
    have hnot : ¬(st.retryCount ≥ opts.maxRetries) := by omega
    cases ok with
    | true =>
      simp [ErrorRecovery.handleError, ErrorRecovery.executeRecoveryStrategy, hstrat,
        ErrorRecovery.attemptRetry, hnot]
    | false =>
      simp [ErrorRecovery.handleError, ErrorRecovery.executeRecoveryStrategy, hstrat,
        ErrorRecovery.attemptRetry, hnot]

/-- Witness for C1: a network error message routes to retry; from the fresh
state under default options a successful retry waits 1000 * 2 ^ 0 ms and
resets retryCount to 0. -/
theorem C1_handleError_retry_backoff_witness :
    (ErrorRecovery.getRecoveryStrategy "network down").1 =
      ErrorRecovery.StrategyType.retry ∧
    initialRecoveryState.retryCount < defaultRecoveryOptions.maxRetries ∧
    (ErrorRecovery.handleError defaultRecoveryOptions initialRecoveryState "network down"
        (some true)).2.2 =
      some (defaultRecoveryOptions.retryDelay * 2 ^ initialRecoveryState.retryCount) ∧
    (ErrorRecovery.handleError defaultRecoveryOptions initialRecoveryState "network down"
        (some true)).1.retryCount = (if true then 0 else initialRecoveryState.retryCount + 1) := by
  have hstrat : (ErrorRecovery.getRecoveryStrategy "network down").1 =
      ErrorRecovery.StrategyType.retry := by decide
  have h := C1_handleError_retry_backoff defaultRecoveryOptions initialRecoveryState
    "network down" (some true) hstrat
  have h2 := h.2.2 true rfl (by decide)
  exact ⟨hstrat, by decide, h2.1, h2.2.2⟩

/-- C2: for every error classified to the degrade strategy, handleError
increments degradationLevel by exactly 1, so consecutive degrade invocations
produce strictly increasing levels; while the new level lies within the fixed
five-step ladder the result is recovered with the ladder entry at the current
level (index capped at the last ladder position), and once the ladder is
exhausted the result is unrecovered with action Maximum degradation reached. -/
theorem C2_handleError_degradation_ladder (opts : RecoveryOptions) (st : RecoveryState)
    (message : String) (retryOutcome : Option Bool)
    (hstrat : (ErrorRecovery.getRecoveryStrategy message).1 =
      ErrorRecovery.StrategyType.degrade) :
    ErrorRecovery.degradations.length = 5 ∧
    (ErrorRecovery.handleError opts st message retryOutcome).1.degradationLevel =
      st.degradationLevel + 1 ∧
    (st.degradationLevel + 1 ≤ ErrorRecovery.degradations.length →
      (ErrorRecovery.handleError opts st message retryOutcome).2.1 =
        { recovered := true,
          action := ErrorRecovery.degradations.getD
            (min st.degradationLevel (ErrorRecovery.degradations.length - 1)) "" }) ∧
    (ErrorRecovery.degradations.length < st.degradationLevel + 1 →
      (ErrorRecovery.handleError opts st message retryOutcome).2.1 =
        { recovered := false, action := "Maximum degradation reached" }) := by
  refine ⟨rfl, ?_, ?_, ?_⟩
  · by_cases hlev : st.degradationLevel + 1 ≤ ErrorRecovery.degradations.length
    · simp [ErrorRecovery.handleError, ErrorRecovery.executeRecoveryStrategy, hstrat,
        ErrorRecovery.degradePerformance, hlev]
    · simp [ErrorRecovery.handleError, ErrorRecovery.executeRecoveryStrategy, hstrat,
        ErrorRecovery.degradePerformance, hlev]
  · intro hlev
    simp [ErrorRecovery.handleError, ErrorRecovery.executeRecoveryStrategy, hstrat,
      ErrorRecovery.degradePerformance, hlev]
  · intro hlev
    have hnot : ¬(st.degradationLevel + 1 ≤ ErrorRecovery.degradations.length) := by omega
    simp [ErrorRecovery.handleError, ErrorRecovery.executeRecoveryStrategy, hstrat,
      ErrorRecovery.degradePerformance, hnot]

/-- Witness for C2: a render error routes to degrade; from the fresh state the
first degrade invocation moves the level to 1 and reports the first ladder
entry with success. -/
theorem C2_handleError_degradation_ladder_witness :
    (ErrorRecovery.getRecoveryStrategy "render failure").1 =
      ErrorRecovery.StrategyType.degrade ∧
    (ErrorRecovery.handleError defaultRecoveryOptions initialRecoveryState "render failure"
        none).1.degradationLevel = initialRecoveryState.degradationLevel + 1 ∧
    (ErrorRecovery.handleError defaultRecoveryOptions initialRecoveryState "render failure"
        none).2.1 =
      { recovered := true,
        action := ErrorRecovery.degradations.getD
          (min initialRecoveryState.degradationLevel
            (ErrorRecovery.degradations.length - 1)) "" } := by
  have hstrat : (ErrorRecovery.getRecoveryStrategy "render failure").1 =
      ErrorRecovery.StrategyType.degrade := by decide
  have h := C2_handleError_degradation_ladder defaultRecoveryOptions initialRecoveryState
    "render failure" none hstrat
  exact ⟨hstrat, h.2.1, h.2.2.1 (by decide)⟩

/-- Helper for C10: once a positive baseline is stored, polling at strictly
increasing later times with successful headerless responses fires the change
callback on every poll. -/
theorem runPolls_headerless_all_fire (times : List Nat) :
    ∀ m : Nat, 0 < m → List.Chain' (· < ·) (m :: times) →
      (ConfigWatcher.runPolls ⟨m⟩
          (times.map (fun t => (⟨true, none, true⟩, t)))).2 = times.map (fun _ => true) := by
  induction times with
  | nil =>
    intro m _ _
    rfl
  | cons t rest ih =>
    intro m hm hchain
    have hmt : m < t := (List.chain'_cons.mp hchain).1
    have hrest : List.Chain' (· < ·) (t :: rest) := (List.chain'_cons.mp hchain).2
    have hstep : ConfigWatcher.checkForChanges ⟨m⟩ ⟨true, none, true⟩ t = (⟨t⟩, true, none) := by
      simp [ConfigWatcher.checkForChanges, hm, hmt]
    simp only [List.map_cons, ConfigWatcher.runPolls, hstep]
    exact congrArg (List.cons true) (ih t (Nat.lt_trans hm hmt) hrest)

/-- C10: when a polled response carries no last-modified header,
checkForChanges substitutes the current clock time as the stored change
marker; consequently, on a strictly increasing positive clock with successful
headerless responses, the first poll only establishes the baseline and every
later poll observes a marker above the baseline, fetches the document and
invokes the change callback even though the document never changed. -/
theorem C10_watcher_headerless_always_reloads (st : WatcherState)
    (response : PollResponse) (now : Nat) (t0 : Nat) (times : List Nat)
    (hok : response.ok = true) (hnone : response.lastModifiedHeader = none)
    (h0 : 0 < t0) (hchain : List.Chain' (· < ·) (t0 :: times)) :
    (ConfigWatcher.checkForChanges st response now).1.lastModified = now ∧
    (ConfigWatcher.runPolls initialWatcherState
        ((t0 :: times).map (fun t => (⟨true, none, true⟩, t)))).2 =
      false :: times.map (fun _ => true) := by
  constructor
  · simp only [ConfigWatcher.checkForChanges, hok, hnone]
    norm_num
    split <;> rfl
  · have hfirst : ConfigWatcher.checkForChanges initialWatcherState ⟨true, none, true⟩ t0 =
        (⟨t0⟩, false, none) := by
      simp [ConfigWatcher.checkForChanges, initialWatcherState]
    simp only [List.map_cons, ConfigWatcher.runPolls, hfirst]
    exact congrArg (List.cons false) (runPolls_headerless_all_fire times t0 h0 hchain)

/-- Witness for C10: a successful headerless response at clock time 42 stores
42 as the marker, and the poll sequence at times 1, 2, 3 fires the callback on
every poll after the first. -/
theorem C10_watcher_headerless_always_reloads_witness :
    (⟨true, none, true⟩ : PollResponse).ok = true ∧
    (⟨true, none, true⟩ : PollResponse).lastModifiedHeader = none ∧
    (0 : Nat) < 1 ∧ List.Chain' (· < ·) [1, 2, 3] ∧
    (ConfigWatcher.checkForChanges ⟨7⟩ ⟨true, none, true⟩ 42).1.lastModified = 42 ∧
    (ConfigWatcher.runPolls initialWatcherState
        (([1, 2, 3] : List Nat).map (fun t => (⟨true, none, true⟩, t)))).2 =
      false :: ([2, 3] : List Nat).map (fun _ => true) := by
  have hchain : List.Chain' (· < ·) [1, 2, 3] := by
    simp [List.chain'_cons]
  have h := C10_watcher_headerless_always_reloads ⟨7⟩ ⟨true, none, true⟩ 42 1 [2, 3]
    rfl rfl (by decide) hchain
  exact ⟨rfl, rfl, by decide, hchain, h.1, h.2⟩

/-- Field-level description of the fps-poor adjustment block. -/
theorem adjustForLowFps_spec (s : MobileSettings) :
    (MobileOptimizations.adjustForLowFps s).1.maxLayers =
      (if s.maxLayers > 10 then max 10 (s.maxLayers - 10) else s.maxLayers) ∧
    (MobileOptimizations.adjustForLowFps s).1.textureScale =
      (if s.textureScale > 1/4 then max (1/4) (s.textureScale - 1/4) else s.textureScale) ∧
    (MobileOptimizations.adjustForLowFps s).1.enableLowPowerMode = true ∧
    (MobileOptimizations.adjustForLowFps s).1.targetFPS = s.targetFPS ∧
    ((MobileOptimizations.adjustForLowFps s).2 = true ↔
      (10 < s.maxLayers ∨ 1/4 < s.textureScale ∨ s.enableLowPowerMode = false)) := by
  unfold MobileOptimizations.adjustForLowFps
  split_ifs <;> simp [*] <;> linarith

/-- Field-level description of the fps-good adjustment block. -/
theorem adjustForHighFps_spec (dev : DeviceInfo) (s : MobileSettings) :
    (MobileOptimizations.adjustForHighFps dev s).1.maxLayers =
      (if s.maxLayers < MobileOptimizations.maxPossibleLayers dev then
        min (MobileOptimizations.maxPossibleLayers dev) (s.maxLayers + 5) else s.maxLayers) ∧
    (MobileOptimizations.adjustForHighFps dev s).1.textureScale =
      (if s.textureScale < 1 ∧ dev.isLowEnd = false then
        min 1 (s.textureScale + 1/4) else s.textureScale) ∧
    (MobileOptimizations.adjustForHighFps dev s).1.enableLowPowerMode =
      s.enableLowPowerMode ∧
    (MobileOptimizations.adjustForHighFps dev s).1.targetFPS = s.targetFPS ∧
    ((MobileOptimizations.adjustForHighFps dev s).2 = true ↔
      (s.maxLayers < MobileOptimizations.maxPossibleLayers dev ∨
        (s.textureScale < 1 ∧ dev.isLowEnd = false))) := by
  unfold MobileOptimizations.adjustForHighFps
  split_ifs <;> simp [*]

/-- Field-level description of the memory adjustment block: low-power mode is
forced unconditionally, but only the maxLayers step reports a change. -/
theorem adjustForMemory_spec (s : MobileSettings) :
    (MobileOptimizations.adjustForMemory s).1.maxLayers =
      (if 5 < s.maxLayers then max 5 (s.maxLayers - 5) else s.maxLayers) ∧
    (MobileOptimizations.adjustForMemory s).1.textureScale = s.textureScale ∧
    (MobileOptimizations.adjustForMemory s).1.enableLowPowerMode = true ∧
    ((MobileOptimizations.adjustForMemory s).2 = true ↔ 5 < s.maxLayers) := by
  unfold MobileOptimizations.adjustForMemory
  split_ifs <;> simp [*]

/-- The memory block never increases maxLayers. -/
theorem adjustForMemory_maxLayers_le (s : MobileSettings) :
    (MobileOptimizations.adjustForMemory s).1.maxLayers ≤ s.maxLayers := by
  rw [(adjustForMemory_spec s).1]
  split_ifs with h
  · exact max_le (by linarith) (by linarith)
  · exact le_refl _

/-- The fps-poor block never increases maxLayers or textureScale. -/
theorem adjustForLowFps_le (s : MobileSettings) :
    (MobileOptimizations.adjustForLowFps s).1.maxLayers ≤ s.maxLayers ∧
    (MobileOptimizations.adjustForLowFps s).1.textureScale ≤ s.textureScale := by
  constructor
  · rw [(adjustForLowFps_spec s).1]
    split_ifs with h
    · exact max_le (by linarith) (by linarith)
    · exact le_refl _
  · rw [(adjustForLowFps_spec s).2.1]
    split_ifs with h
    · exact max_le (by linarith) (by linarith)
    · exact le_refl _

/-- C7 (amended): for every settings state, updateSettingsForPerformance
forces low-power mode when fps is below 0.8 of the target or memory is above
80 percent; below 0.8 of the target it steps maxLayers down by 10 toward the
floor 10 and textureScale down by 0.25 toward the floor 0.25, never
increasing either; above 1.2 of the target with memory at most 80 percent it
steps maxLayers up by 5 toward the class-specific ceiling and, on non-low-end
devices, textureScale up by 0.25 toward 1; with fps in the neutral band and
memory above 80 percent it steps maxLayers down by 5 toward the floor 5; and
it returns true exactly when one of the stepped adjustments or the fps-branch
low-power forcing fired — forcing low-power mode through the memory branch
alone is not reported as a change. -/
theorem C7_updateSettingsForPerformance_spec (dev : DeviceInfo) (s : MobileSettings)
    (fps mem : ℚ) :
    ((fps < s.targetFPS * (8/10) ∨ 80 < mem) →
      (MobileOptimizations.updateSettingsForPerformance dev s fps mem).1.enableLowPowerMode =
        true) ∧
    (fps < s.targetFPS * (8/10) →
      (MobileOptimizations.updateSettingsForPerformance dev s fps mem).1.maxLayers ≤
        s.maxLayers ∧
      (MobileOptimizations.updateSettingsForPerformance dev s fps mem).1.textureScale ≤
        s.textureScale) ∧
    (fps < s.targetFPS * (8/10) → ¬(80 < mem) →
      (MobileOptimizations.updateSettingsForPerformance dev s fps mem).1.maxLayers =
        (if s.maxLayers > 10 then max 10 (s.maxLayers - 10) else s.maxLayers) ∧
      (MobileOptimizations.updateSettingsForPerformance dev s fps mem).1.textureScale =
        (if s.textureScale > 1/4 then max (1/4) (s.textureScale - 1/4) else s.textureScale)) ∧
    (¬(fps < s.targetFPS * (8/10)) → s.targetFPS * (12/10) < fps → ¬(80 < mem) →
      (MobileOptimizations.updateSettingsForPerformance dev s fps mem).1.maxLayers =
        (if s.maxLayers < MobileOptimizations.maxPossibleLayers dev then
          min (MobileOptimizations.maxPossibleLayers dev) (s.maxLayers + 5)
        else s.maxLayers) ∧
      (MobileOptimizations.updateSettingsForPerformance dev s fps mem).1.textureScale =
        (if s.textureScale < 1 ∧ dev.isLowEnd = false then
          min 1 (s.textureScale + 1/4) else s.textureScale)) ∧
    (¬(fps < s.targetFPS * (8/10)) → ¬(s.targetFPS * (12/10) < fps) → 80 < mem →
      (MobileOptimizations.updateSettingsForPerformance dev s fps mem).1.maxLayers =
        (if 5 < s.maxLayers then max 5 (s.maxLayers - 5) else s.maxLayers)) ∧
    ((MobileOptimizations.updateSettingsForPerformance dev s fps mem).2 = true ↔
      ((fps < s.targetFPS * (8/10) ∧
          (10 < s.maxLayers ∨ 1/4 < s.textureScale ∨ s.enableLowPowerMode = false)) ∨
       (¬(fps < s.targetFPS * (8/10)) ∧ s.targetFPS * (12/10) < fps ∧
          (s.maxLayers < MobileOptimizations.maxPossibleLayers dev ∨
            (s.textureScale < 1 ∧ dev.isLowEnd = false))) ∨
       (80 < mem ∧ 5 < (MobileOptimizations.fpsPhase dev s fps).1.maxLayers))) := by
  refine ⟨?_, ?_, ?_, ?_, ?_, ?_⟩
  · intro hcond
    by_cases h3 : 80 < mem
    · simp only [MobileOptimizations.updateSettingsForPerformance, h3, if_true]
      exact (adjustForMemory_spec _).2.2.1
    · have h1 : fps < s.targetFPS * (8/10) := hcond.resolve_right h3
      simp only [MobileOptimizations.updateSettingsForPerformance,
        MobileOptimizations.fpsPhase, h1, if_true, h3, if_false]
      exact (adjustForLowFps_spec s).2.2.1
  · intro h1
    by_cases h3 : 80 < mem
    · simp only [MobileOptimizations.updateSettingsForPerformance,
        MobileOptimizations.fpsPhase, h1, if_true, h3]
      constructor
      · exact le_trans (adjustForMemory_maxLayers_le _) (adjustForLowFps_le s).1
      · rw [(adjustForMemory_spec _).2.1]
        exact (adjustForLowFps_le s).2
    · simp only [MobileOptimizations.updateSettingsForPerformance,
        MobileOptimizations.fpsPhase, h1, if_true, h3, if_false]
      exact adjustForLowFps_le s
  · intro h1 h3
    simp only [MobileOptimizations.updateSettingsForPerformance,
      MobileOptimizations.fpsPhase, h1, if_true, h3, if_false]
    exact ⟨(adjustForLowFps_spec s).1, (adjustForLowFps_spec s).2.1⟩
  · intro h1 h2 h3
    simp only [MobileOptimizations.updateSettingsForPerformance,
      MobileOptimizations.fpsPhase, h1, if_false, gt_iff_lt, h2, if_true, h3]
    exact ⟨(adjustForHighFps_spec dev s).1, (adjustForHighFps_spec dev s).2.1⟩
  · intro h1 h2 h3
    simp only [MobileOptimizations.updateSettingsForPerformance,
      MobileOptimizations.fpsPhase, h1, if_false, gt_iff_lt, h2, h3, if_true]
    exact (adjustForMemory_spec s).1
  · by_cases h1 : fps < s.targetFPS * (8/10)
    · by_cases h3 : 80 < mem
      · simp only [MobileOptimizations.updateSettingsForPerformance,
          MobileOptimizations.fpsPhase, h1, if_true, h3, Bool.or_eq_true,
          (adjustForLowFps_spec s).2.2.2.2, (adjustForMemory_spec _).2.2.2]
        simp [h1, h3]
      · simp only [MobileOptimizations.updateSettingsForPerformance,
          MobileOptimizations.fpsPhase, h1, if_true, h3, if_false, Bool.or_eq_true,
          (adjustForLowFps_spec s).2.2.2.2]
        simp [h1, h3]
    · by_cases h2 : s.targetFPS * (12/10) < fps
      · by_cases h3 : 80 < mem
        · simp only [MobileOptimizations.updateSettingsForPerformance,
            MobileOptimizations.fpsPhase, h1, if_false, gt_iff_lt, h2, if_true, h3,
            Bool.or_eq_true, (adjustForHighFps_spec dev s).2.2.2.2,
            (adjustForMemory_spec _).2.2.2]
          simp [h1, h2, h3]
        · simp only [MobileOptimizations.updateSettingsForPerformance,
            MobileOptimizations.fpsPhase, h1, if_false, gt_iff_lt, h2, if_true, h3,
            Bool.or_eq_true, (adjustForHighFps_spec dev s).2.2.2.2]
          simp [h1, h2, h3]
      · by_cases h3 : 80 < mem
        · simp only [MobileOptimizations.updateSettingsForPerformance,
            MobileOptimizations.fpsPhase, h1, if_false, gt_iff_lt, h2, h3, if_true,
            Bool.or_eq_true, (adjustForMemory_spec s).2.2.2]
          simp [h1, h2, h3]
        · simp only [MobileOptimizations.updateSettingsForPerformance,
            MobileOptimizations.fpsPhase, h1, if_false, gt_iff_lt, h2, h3,
            Bool.or_eq_true]
          simp [h1, h2, h3]

/-- C7 counterexample: with maxLayers already at the floor 5, textureScale at
the floor 0.25 and low-power mode off, fps in the neutral band and memory at
81 percent, the memory branch forces low-power mode — a settings change — yet
the function returns false, refuting returns-true-iff-some-setting-changed. -/
theorem C7_memory_lowpower_change_unreported :
    (MobileOptimizations.updateSettingsForPerformance
        ⟨false, false, false, 1, 4⟩ ⟨5, 30, 100, 1/4, false, 10, 2⟩ 30 81).2 = false ∧
    (MobileOptimizations.updateSettingsForPerformance
        ⟨false, false, false, 1, 4⟩ ⟨5, 30, 100, 1/4, false, 10, 2⟩ 30 81).1 ≠
      ⟨5, 30, 100, 1/4, false, 10, 2⟩ := by
  norm_num [MobileOptimizations.updateSettingsForPerformance,
    MobileOptimizations.fpsPhase, MobileOptimizations.adjustForMemory]

/-- Witness for C7: on a high-end desktop profile with fps 40 against target
60 (below the 48 threshold) and memory at 50 percent, the poor branch steps
maxLayers 100 to 90 and textureScale 1 to 0.75 and the change is reported. -/
theorem C7_updateSettingsForPerformance_spec_witness :
    ((40 : ℚ) < (60 : ℚ) * (8/10)) ∧ ¬((80 : ℚ) < 50) ∧
    (MobileOptimizations.updateSettingsForPerformance
        ⟨false, false, false, 1, 8⟩ ⟨100, 60, 100, 1, false, 10, 4⟩ 40 50).1.maxLayers =
      (if (100 : ℚ) > 10 then max 10 ((100 : ℚ) - 10) else 100) ∧
    (MobileOptimizations.updateSettingsForPerformance
        ⟨false, false, false, 1, 8⟩ ⟨100, 60, 100, 1, false, 10, 4⟩ 40 50).1.enableLowPowerMode =
      true ∧
    ((MobileOptimizations.updateSettingsForPerformance
        ⟨false, false, false, 1, 8⟩ ⟨100, 60, 100, 1, false, 10, 4⟩ 40 50).2 = true) := by
  have h := C7_updateSettingsForPerformance_spec ⟨false, false, false, 1, 8⟩
    ⟨100, 60, 100, 1, false, 10, 4⟩ 40 50
  have h1 : (40 : ℚ) < (60 : ℚ) * (8/10) := by norm_num
  have h3 : ¬((80 : ℚ) < 50) := by norm_num
  refine ⟨h1, h3, (h.2.2.1 h1 h3).1, h.1 (Or.inl h1), ?_⟩
  exact h.2.2.2.2.2.mpr (Or.inl ⟨h1, by norm_num⟩)

/-- getSprite never grows the idle pool beyond the cap. -/
theorem getSprite_bound (st : SpritePoolState) (id : String)
    (h : st.availableSprites.length ≤ st.maxPoolSize) :
    (SpritePool.getSprite st id).1.availableSprites.length ≤
      (SpritePool.getSprite st id).1.maxPoolSize := by
  unfold SpritePool.getSprite
  cases hl : st.activeSprites.lookup id with
  | some s => exact h
  | none =>
    cases hg : st.availableSprites.getLast? with
    | some s =>
      simp only [List.length_dropLast]
      omega
    | none => exact h

/-- returnSprite preserves the idle-pool bound. -/
theorem returnSprite_bound (st : SpritePoolState) (id : String)
    (h : st.availableSprites.length ≤ st.maxPoolSize) :
    (SpritePool.returnSprite st id).availableSprites.length ≤
      (SpritePool.returnSprite st id).maxPoolSize := by
  unfold SpritePool.returnSprite
  cases hl : st.activeSprites.lookup id with
  | none => exact h
  | some sprite =>
    simp only
    split_ifs with hlt
    · simp only [List.length_append, List.length_cons, List.length_nil]
      omega
    · exact h

/-- The cleanup fold over returnSprite preserves the idle-pool bound. -/
theorem cleanup_fold_bound (current : List String) (ids : List String) :
    ∀ st : SpritePoolState, st.availableSprites.length ≤ st.maxPoolSize →
      ((ids.foldl (fun s layerId =>
          if current.contains layerId then s
          else SpritePool.returnSprite s layerId) st)).availableSprites.length ≤
        ((ids.foldl (fun s layerId =>
          if current.contains layerId then s
          else SpritePool.returnSprite s layerId) st)).maxPoolSize := by
  induction ids with
  | nil => intro st h; exact h
  | cons i rest ih =>
    intro st h
    simp only [List.foldl_cons]
    apply ih
    by_cases hc : i ∈ current
    · simpa [hc] using h
    · simpa [hc] using returnSprite_bound st i h

/-- optimizePoolSize preserves the idle-pool bound: growth only raises the
cap, and the shrink path trims the idle pool to 25 while the cap stays at
least 26. -/
theorem optimizePoolSize_bound (st : SpritePoolState)
    (h : st.availableSprites.length ≤ st.maxPoolSize) :
    (SpritePool.optimizePoolSize st).availableSprites.length ≤
      (SpritePool.optimizePoolSize st).maxPoolSize := by
  simp only [SpritePool.optimizePoolSize]
  split_ifs with hgrow hshrinkA hshrinkB
  · exfalso
    linarith [hgrow.1, hshrinkA.1]
  · simpa using le_trans h (Nat.le_add_right _ 25)
  · have h50 : st.maxPoolSize > 50 := hshrinkB.2
    simp only [List.length_take]
    omega
  · exact h

/-- Every single pool operation preserves the idle-pool bound. -/
theorem poolStep_bound (st : SpritePoolState) (op : PoolOp)
    (h : st.availableSprites.length ≤ st.maxPoolSize) :
    (poolStep st op).availableSprites.length ≤ (poolStep st op).maxPoolSize := by
  cases op with
  | get id => exact getSprite_bound st id h
  | ret id => exact returnSprite_bound st id h
  | cleanup ids =>
    simpa [poolStep, SpritePool.cleanupUnusedSprites] using
      cleanup_fold_bound ids (st.activeSprites.map (fun p => p.1)) st h
  | update id layer => exact h
  | optimize => exact optimizePoolSize_bound st h

/-- Every sequence of pool operations preserves the idle-pool bound. -/
theorem runPool_bound (ops : List PoolOp) :
    ∀ st : SpritePoolState, st.availableSprites.length ≤ st.maxPoolSize →
      (runPool st ops).availableSprites.length ≤ (runPool st ops).maxPoolSize := by
  induction ops with
  | nil => intro st h; exact h
  | cons op rest ih =>
    intro st h
    simp only [runPool, List.foldl_cons]
    exact ih (poolStep st op) (poolStep_bound st op h)

/-- C5: starting from a fresh pool of any cap, after every sequence of
getSprite, returnSprite, cleanupUnusedSprites, updateSprite and
optimizePoolSize operations the number of idle pooled handles never exceeds
the current maxPoolSize; and a returnSprite that finds the pool already at
capacity leaves the idle pool unchanged and destroys the handle instead of
retaining it. -/
theorem C5_pool_idle_bounded (n : Nat) (ops : List PoolOp) (st : SpritePoolState)
    (id : String) (sprite : Nat)
    (hact : st.activeSprites.lookup id = some sprite)
    (hcap : st.maxPoolSize ≤ st.availableSprites.length) :
    ((runPool (initialSpritePool n) ops).availableSprites.length ≤
      (runPool (initialSpritePool n) ops).maxPoolSize) ∧
    ((SpritePool.returnSprite st id).availableSprites = st.availableSprites ∧
      (SpritePool.returnSprite st id).destroyed = st.destroyed ++ [sprite]) := by
  refine ⟨runPool_bound ops (initialSpritePool n) (by simp [initialSpritePool]), ?_⟩
  unfold SpritePool.returnSprite
  rw [hact]
  simp only
  rw [if_neg (by simp; omega)]
  exact ⟨rfl, rfl⟩

/-- Witness for C5: with cap 0 and one active handle the pool is at capacity;
returning the handle pools nothing and destroys it, and the two-operation run
respects the bound. -/
theorem C5_pool_idle_bounded_witness :
    ((SpritePool.getSprite (initialSpritePool 0) "a").1.activeSprites.lookup "a" =
      some 0) ∧
    ((SpritePool.getSprite (initialSpritePool 0) "a").1.maxPoolSize ≤
      (SpritePool.getSprite (initialSpritePool 0) "a").1.availableSprites.length) ∧
    ((runPool (initialSpritePool 0)
        [PoolOp.get "a", PoolOp.ret "a"]).availableSprites.length ≤
      (runPool (initialSpritePool 0) [PoolOp.get "a", PoolOp.ret "a"]).maxPoolSize) ∧
    ((SpritePool.returnSprite (SpritePool.getSprite (initialSpritePool 0) "a").1
        "a").availableSprites =
      (SpritePool.getSprite (initialSpritePool 0) "a").1.availableSprites ∧
     (SpritePool.returnSprite (SpritePool.getSprite (initialSpritePool 0) "a").1
        "a").destroyed =
      (SpritePool.getSprite (initialSpritePool 0) "a").1.destroyed ++ [0]) := by
  have h := C5_pool_idle_bounded 0 [PoolOp.get "a", PoolOp.ret "a"]
    (SpritePool.getSprite (initialSpritePool 0) "a").1 "a" 0 (by decide) (by decide)
  exact ⟨by decide, by decide, h.1, h.2⟩

/-- The replacement function of cacheSet preserves lookups at other keys. -/
theorem lookup_map_replace_ne (id i : String) (t : Texture) (hne : i ≠ id) :
    ∀ c : List (String × Texture),
      (c.map (fun p => if p.1 == id then (id, t) else p)).lookup i = c.lookup i := by
  intro c
  induction c with
  | nil => rfl
  | cons p rest ih =>
    obtain ⟨k, v⟩ := p
    by_cases hp : k = id
    · simp only [List.map_cons, hp, beq_self_eq_true, if_true, List.lookup_cons,
        beq_false_of_ne hne, beq_false_of_ne (hp ▸ hne), ih]
    · simp only [List.map_cons, beq_false_of_ne hp, Bool.false_eq_true, if_false,
        List.lookup_cons, ih]

/-- The replacement function of cacheSet stores the texture at every
occurrence of the key, so its lookup yields the new texture when the key
occurs. -/
theorem lookup_map_replace_self (id : String) (t : Texture) :
    ∀ c : List (String × Texture), c.any (fun p => p.1 == id) = true →
      (c.map (fun p => if p.1 == id then (id, t) else p)).lookup id = some t := by
  intro c
  induction c with
  | nil => intro h; simp at h
  | cons p rest ih =>
    intro hany
    obtain ⟨k, v⟩ := p
    by_cases hp : k = id
    · simp only [List.map_cons, hp, beq_self_eq_true, if_true, List.lookup_cons,
        beq_self_eq_true]
    · have hrest : rest.any (fun p => p.1 == id) = true := by
        simp only [List.any_cons, beq_false_of_ne hp, Bool.false_or] at hany
        exact hany
      simp only [List.map_cons, beq_false_of_ne hp, Bool.false_eq_true, if_false,
        List.lookup_cons, beq_false_of_ne (Ne.symm hp), ih hrest]

/-- Appending a fresh binding is found by lookup when the key was absent. -/
theorem lookup_append_self (id : String) (t : Texture) :
    ∀ c : List (String × Texture), c.any (fun p => p.1 == id) = false →
      (c ++ [(id, t)]).lookup id = some t := by
  intro c
  induction c with
  | nil => intro _; simp [List.lookup_cons]
  | cons p rest ih =>
    intro hany
    obtain ⟨k, v⟩ := p
    simp only [List.any_cons, Bool.or_eq_false_iff] at hany
    have hp : k ≠ id := by
      intro he
      simp [he] at hany
    simp only [List.cons_append, List.lookup_cons, beq_false_of_ne (Ne.symm hp)]
    exact ih hany.2

/-- Appending a fresh binding does not affect lookups at other keys. -/
theorem lookup_append_ne (id i : String) (t : Texture) (hne : i ≠ id) :
    ∀ c : List (String × Texture), (c ++ [(id, t)]).lookup i = c.lookup i := by
  intro c
  induction c with
  | nil => simp [List.lookup_cons, beq_false_of_ne hne]
  | cons p rest ih =>
    obtain ⟨k, v⟩ := p
    simp only [List.cons_append, List.lookup_cons, ih]

/-- Looking up the key just set yields the stored texture. -/
theorem cacheSet_lookup_self (c : List (String × Texture)) (id : String) (t : Texture) :
    (ImagePreloader.cacheSet c id t).lookup id = some t := by
  unfold ImagePreloader.cacheSet
  split_ifs with hany
  · exact lookup_map_replace_self id t c hany
  · have hfalse : c.any (fun p => p.1 == id) = false := by
      cases h2 : c.any (fun p => p.1 == id)
      · rfl
      · exact absurd h2 hany
    exact lookup_append_self id t c hfalse

/-- Setting one key leaves lookups at other keys unchanged. -/
theorem cacheSet_lookup_ne (c : List (String × Texture)) (id i : String) (t : Texture)
    (hne : i ≠ id) :
    (ImagePreloader.cacheSet c id t).lookup i = c.lookup i := by
  unfold ImagePreloader.cacheSet
  split_ifs with hany
  · exact lookup_map_replace_ne id i t hne c
  · exact lookup_append_ne id i t hne c

/-- Folding cacheSet over results none of which carry the key leaves its
lookup unchanged. -/
theorem lookup_fold_cacheSet_not_mem (rs : List (String × Texture × Bool)) :
    ∀ (c : List (String × Texture)) (id : String), (∀ r ∈ rs, r.1 ≠ id) →
      (rs.foldl (fun acc r => ImagePreloader.cacheSet acc r.1 r.2.1) c).lookup id =
        c.lookup id := by
  induction rs with
  | nil => intro c id _; rfl
  | cons r rest ih =>
    intro c id h
    simp only [List.foldl_cons]
    rw [ih (ImagePreloader.cacheSet c r.1 r.2.1) id
      (fun q hq => h q (List.mem_cons_of_mem r hq))]
    exact cacheSet_lookup_ne c r.1 id r.2.1 (Ne.symm (h r (List.mem_cons_self r rest)))

/-- Folding cacheSet over results with nodup keys stores each result at its
key. -/
theorem lookup_fold_cacheSet_mem (rs : List (String × Texture × Bool)) :
    ∀ (c : List (String × Texture)) (id : String) (t : Texture) (ok : Bool),
      (id, t, ok) ∈ rs → (rs.map (fun r => r.1)).Nodup →
      (rs.foldl (fun acc r => ImagePreloader.cacheSet acc r.1 r.2.1) c).lookup id =
        some t := by
  induction rs with
  | nil => intro c id t ok h _; simp at h
  | cons r rest ih =>
    intro c id t ok hmem hnodup
    simp only [List.map_cons, List.nodup_cons] at hnodup
    rcases List.mem_cons.mp hmem with heq | hrest
    · rw [← heq] at hnodup ⊢
      simp only [List.foldl_cons]
      rw [lookup_fold_cacheSet_not_mem rest (ImagePreloader.cacheSet c id t) id ?hne]
      · exact cacheSet_lookup_self c id t
      · intro q hq he
        exact hnodup.1 (he ▸ List.mem_map_of_mem (fun r => r.1) hq)
    · simp only [List.foldl_cons]
      exact ih (ImagePreloader.cacheSet c r.1 r.2.1) id t ok hrest hnodup.2

/-- The per-entry resolution keeps the entry id as the result key. -/
theorem loadEntry_fst (c : List (String × Texture)) (load : String → Option Texture)
    (id url : String) : (ImagePreloader.loadEntry c load id url).1 = id := by
  unfold ImagePreloader.loadEntry
  cases c.lookup id with
  | some t => rfl
  | none =>
    cases load url with
    | some t => rfl
    | none => rfl

/-- The keys of a preload batch result list are the registry keys. -/
theorem loadEntry_map_fst (c : List (String × Texture)) (load : String → Option Texture)
    (reg : List (String × String)) :
    ((reg.map (fun e => ImagePreloader.loadEntry c load e.1 e.2)).map (fun r => r.1)) =
      reg.map (fun e => e.1) := by
  simp [List.map_map, Function.comp, loadEntry_fst]

/-- C8: preloadImages always resolves: every registry id ends up in the cache;
an entry whose id was uncached and whose URL fails to load or times out
resolves to the shared fallback texture and its failure is reported through
the error callback, never rejecting the batch; and getTexture returns the
fallback for any id absent from the cache. -/
theorem C8_preloadImages_resilient (cache0 : List (String × Texture))
    (reg : List (String × String)) (load : String → Option Texture)
    (id url : String) (hnodup : (reg.map (fun e => e.1)).Nodup) :
    (∀ e ∈ reg,
      (((ImagePreloader.preloadImages cache0 reg load).textureCache.lookup e.1)).isSome =
        true) ∧
    ((id, url) ∈ reg → cache0.lookup id = none → load url = none →
      (ImagePreloader.preloadImages cache0 reg load).textureCache.lookup id =
        some Texture.fallback ∧
      ("Failed to load image " ++ id) ∈
        (ImagePreloader.preloadImages cache0 reg load).reportedErrors) ∧
    (∀ (c : List (String × Texture)) (i : String), c.lookup i = none →
      ImagePreloader.getTexture c i = Texture.fallback) := by
  have hkeys : ((reg.map (fun e => ImagePreloader.loadEntry cache0 load e.1 e.2)).map
      (fun r => r.1)).Nodup := by
    rw [loadEntry_map_fst]
    exact hnodup
  refine ⟨?_, ?_, ?_⟩
  · intro e he
    have hmem : ImagePreloader.loadEntry cache0 load e.1 e.2 ∈
        reg.map (fun q => ImagePreloader.loadEntry cache0 load q.1 q.2) :=
      List.mem_map_of_mem _ he
    have hfst : (ImagePreloader.loadEntry cache0 load e.1 e.2).1 = e.1 :=
      loadEntry_fst cache0 load e.1 e.2
    have hmem2 : ((ImagePreloader.loadEntry cache0 load e.1 e.2).1,
        (ImagePreloader.loadEntry cache0 load e.1 e.2).2.1,
        (ImagePreloader.loadEntry cache0 load e.1 e.2).2.2) ∈
        reg.map (fun q => ImagePreloader.loadEntry cache0 load q.1 q.2) := hmem
    have hl := lookup_fold_cacheSet_mem _ cache0
      (ImagePreloader.loadEntry cache0 load e.1 e.2).1
      (ImagePreloader.loadEntry cache0 load e.1 e.2).2.1
      (ImagePreloader.loadEntry cache0 load e.1 e.2).2.2 hmem2 hkeys
    rw [hfst] at hl
    simp only [ImagePreloader.preloadImages]
    rw [hl]
    rfl
  · intro hmem hc hl
    have hentry : ImagePreloader.loadEntry cache0 load id url =
        (id, Texture.fallback, false) := by
      unfold ImagePreloader.loadEntry
      rw [hc, hl]
    have hmem2 : (id, Texture.fallback, false) ∈
        reg.map (fun q => ImagePreloader.loadEntry cache0 load q.1 q.2) := by
      rw [← hentry]
      exact List.mem_map_of_mem _ hmem
    constructor
    · have hres := lookup_fold_cacheSet_mem _ cache0 id Texture.fallback false hmem2 hkeys
      simp only [ImagePreloader.preloadImages]
      exact hres
    · simp only [ImagePreloader.preloadImages]
      refine List.mem_filterMap.mpr ⟨(id, Texture.fallback, false), hmem2, ?_⟩
      rfl
  · intro c i h
    simp [ImagePreloader.getTexture, h]

/-- Witness for C8: a two-entry registry where the second URL fails to load:
both ids end up cached, the failing one as the fallback with the failure
reported, and getTexture falls back on a missing id. -/
theorem C8_preloadImages_resilient_witness :
    ((([("a", "ua"), ("b", "ub")] : List (String × String)).map (fun e => e.1)).Nodup) ∧
    ((ImagePreloader.preloadImages []
        [("a", "ua"), ("b", "ub")]
        (fun u => if u = "ua" then some (Texture.fromUrl "ua") else none)).textureCache.lookup
          "a").isSome = true ∧
    (ImagePreloader.preloadImages []
        [("a", "ua"), ("b", "ub")]
        (fun u => if u = "ua" then some (Texture.fromUrl "ua") else none)).textureCache.lookup
          "b" = some Texture.fallback ∧
    ("Failed to load image " ++ "b") ∈
      (ImagePreloader.preloadImages []
        [("a", "ua"), ("b", "ub")]
        (fun u => if u = "ua" then some (Texture.fromUrl "ua") else none)).reportedErrors ∧
    ImagePreloader.getTexture [] "missing" = Texture.fallback := by
  have h := C8_preloadImages_resilient [] [("a", "ua"), ("b", "ub")]
    (fun u => if u = "ua" then some (Texture.fromUrl "ua") else none) "b" "ub" (by decide)
  have h2 := h.2.1 (by decide) rfl (by decide)
  exact ⟨by decide, h.1 ("a", "ua") (by decide), h2.1, h2.2, h.2.2 [] "missing" rfl⟩

/-- Processing preserves the underlying declarative layer of each entry, so
the processed list projects to the z-sorted document layers. -/
theorem processLayersList_toLayer (cfg : LayerConfig) (v : ViewportInfo) :
    (LayerLoader.processLayersList cfg v).map ProcessedLayer.toLayer =
      cfg.layers.mergeSort (fun a b => decide (a.z ≤ b.z)) := by
  simp only [LayerLoader.processLayersList, LayerLoader.updateLayerVisibility,
    List.map_map]
  exact List.map_id'' (fun x => rfl) _

/-- The z keys of the processed list are sorted ascending. -/
theorem processLayersList_z_sorted (cfg : LayerConfig) (v : ViewportInfo) :
    ((LayerLoader.processLayersList cfg v).map (fun l => l.z)).Pairwise (· ≤ ·) := by
  have h2 : (LayerLoader.processLayersList cfg v).map (fun l => l.z) =
      (cfg.layers.mergeSort (fun a b => decide (a.z ≤ b.z))).map (fun l => l.z) := by
    rw [← processLayersList_toLayer cfg v, List.map_map]
    rfl
  rw [h2]
  have htrans : ∀ a b c : Layer, (fun a b => decide (a.z ≤ b.z)) a b = true →
      (fun a b => decide (a.z ≤ b.z)) b c = true →
      (fun a b => decide (a.z ≤ b.z)) a c = true := by
    intro a b c hab hbc
    simp only [decide_eq_true_eq] at *
    exact le_trans hab hbc
  have htotal : ∀ a b : Layer, ((fun a b => decide (a.z ≤ b.z)) a b ||
      (fun a b => decide (a.z ≤ b.z)) b a) = true := by
    intro a b
    simp only [Bool.or_eq_true, decide_eq_true_eq]
    exact le_total a.z b.z
  have hsorted := @List.sorted_mergeSort Layer (fun a b => decide (a.z ≤ b.z))
    htrans htotal cfg.layers
  rw [List.pairwise_map]
  exact hsorted.imp (fun h => by simpa using h)

/-- C3: for every valid scene document, setConfig notifies subscribers with
the processed list, whose underlying layers are a permutation of the
document's layers and stand sorted by ascending z; on the concrete 3-layer
document with z values [3,1,2] the delivered order is the ids in z-order
[1,2,3], for either input array order. -/
theorem C3_setConfig_zorder (st : LoaderState) (cfg : LayerConfig)
    (hv : (LayerValidator.validate cfg).isValid = true) :
    (LayerLoader.setConfig st cfg).2.2 =
      some (LayerLoader.processLayersList cfg st.viewportInfo) ∧
    ((LayerLoader.processLayersList cfg st.viewportInfo).map ProcessedLayer.toLayer).Perm
      cfg.layers ∧
    ((LayerLoader.processLayersList cfg st.viewportInfo).map (fun l => l.z)).Pairwise
      (· ≤ ·) ∧
    (LayerLoader.processLayersList exampleDoc321 ⟨1920, 1080, 1⟩).map (fun l => l.id) =
      ["B", "C", "A"] ∧
    (LayerLoader.processLayersList exampleDocShuffled ⟨1920, 1080, 1⟩).map
      (fun l => l.id) = ["B", "C", "A"] := by
  refine ⟨?_, ?_, processLayersList_z_sorted cfg st.viewportInfo, ?_, ?_⟩
  · simp [LayerLoader.setConfig, hv]
  · rw [processLayersList_toLayer]
    exact List.mergeSort_perm cfg.layers _
  · norm_num [LayerLoader.processLayersList, List.mergeSort, List.merge,
      LayerLoader.updateLayerVisibility, LayerLoader.processLayer, exampleDoc321]
  · norm_num [LayerLoader.processLayersList, List.mergeSort, List.merge,
      LayerLoader.updateLayerVisibility, LayerLoader.processLayer, exampleDocShuffled]

/-- Witness for C3: the concrete three-layer document is valid; the loader
notifies with the processed list and delivers ids in z-order. -/
theorem C3_setConfig_zorder_witness :
    (LayerValidator.validate exampleDoc321).isValid = true ∧
    (LayerLoader.setConfig initialLoaderState exampleDoc321).2.2 =
      some (LayerLoader.processLayersList exampleDoc321 initialLoaderState.viewportInfo) ∧
    (LayerLoader.processLayersList exampleDoc321 ⟨1920, 1080, 1⟩).map (fun l => l.id) =
      ["B", "C", "A"] := by
  have hv : (LayerValidator.validate exampleDoc321).isValid = true := by decide
  have h := C3_setConfig_zorder initialLoaderState exampleDoc321 hv
  exact ⟨hv, h.1, h.2.2.2.1⟩
